import Mathlib

/-!
Verification of the airport-service data-integrity core (src/airport/models.py,
src/airport/utils.py) against its specification.

Embedding conventions:
- Django `DateTimeField` values are integers counting microseconds (the
  resolution of Python `datetime`); `timedelta(minutes = m)` is `m * 60 * 1000000`
  microseconds, and subtracting two datetimes yields such an integer.
- A Django `ValidationError({field: message, ...})` is a list of
  (field, message) pairs.
- Foreign keys that the validation code dereferences (`ticket.flight`,
  `flight.airplane`) are embedded as nested records, mirroring attribute
  access in the source; other foreign keys are opaque primary-key `Nat`s.
- The persistence layer is a list of records; `save` validates first and
  appends only on success, exactly as the overridden `save` methods call
  `full_clean()` before `super().save()`.
-/

/-- A structured per-field validation error: Django raises
`ValidationError` with a mapping from field name to message. -/
abbrev FieldErrors := List (String × String)

/-- Microseconds in `timedelta(minutes = m)`. -/
def timedeltaMinutes (m : Int) : Int := m * 60 * 1000000

/-- Model of `AirplaneType` (src/airport/models.py): only a name. -/
structure AirplaneType where
  name : String
deriving DecidableEq, Repr

/-- Model of `Airplane` (src/airport/models.py): `airplane_type` is a nullable
foreign key, held as an optional primary key because no validation rule
dereferences it. -/
structure Airplane where
  name : String
  rows : Nat
  seats_in_row : Nat
  airplane_type : Option Nat
deriving DecidableEq, Repr

/-- `Airplane.capacity` property: `rows * seats_in_row`. -/
def Airplane.capacity (a : Airplane) : Nat := a.rows * a.seats_in_row

/-- Model of `Route` (src/airport/models.py): `source` and `destination` are
foreign keys to `Airport`, held as primary keys, which is also what the
store-level `unique_together` constraint compares. -/
structure Route where
  distance : Nat
  source : Nat
  destination : Nat
deriving DecidableEq, Repr

/-- Model of `Flight` (src/airport/models.py). The `airplane` foreign key is
nested because `Ticket.clean` dereferences `self.flight.airplane`; `route` and
`crew` stay opaque primary keys. -/
structure Flight where
  departure_time : Int
  arrival_time : Int
  route : Nat
  airplane : Airplane
  crew : List Nat
deriving DecidableEq, Repr

/-- `Flight.duration` property: `arrival_time - departure_time`. -/
def Flight.duration (f : Flight) : Int := f.arrival_time - f.departure_time

/-- `Flight.clean` (src/airport/models.py lines 134-140): raises a
`ValidationError` keyed to `arrival_time` when
`arrival_time + timedelta(minutes=30) <= departure_time`.  Returned here as
the list of field errors it raises (empty when it passes). -/
def Flight.clean (f : Flight) : FieldErrors :=
  if f.arrival_time + timedeltaMinutes 30 ≤ f.departure_time then
    [("arrival_time",
      "Arrival time must be at least 30 minutes from departure time.")]
  else []

/-- Field-validator errors for `Flight`: its own fields are datetimes and
foreign keys, which are always well-typed in this embedding, so
`clean_fields` contributes no errors. -/
def Flight.clean_fields (_f : Flight) : FieldErrors := []

/-- `Model.full_clean` for `Flight`: collects field-validator errors and
`clean()` errors, raising the combined mapping when non-empty. -/
def Flight.full_clean (f : Flight) : Except FieldErrors Unit :=
  match Flight.clean_fields f ++ Flight.clean f with
  | [] => Except.ok ()
  | errs => Except.error errs

/-- `Flight.save` (src/airport/models.py lines 142-144): `self.full_clean()`
then `super().save()`.  The store is a list; persistence appends. -/
def Flight.save (f : Flight) (db : List Flight) :
    Except FieldErrors (List Flight) :=
  match Flight.full_clean f with
  | Except.error e => Except.error e
  | Except.ok _ => Except.ok (db ++ [f])

/-- Model of `Ticket` (src/airport/models.py): `flight` is nested because
`Ticket.clean` walks `self.flight.airplane`; `order` stays a primary key. -/
structure Ticket where
  row : Nat
  seat_in_row : Nat
  order : Nat
  flight : Flight
deriving DecidableEq, Repr

/-- Message of Django `MinValueValidator(1)` on `row` / `seat_in_row`. -/
def minValueMsg : String := "Ensure this value is greater than or equal to 1."

/-- Field-validator errors for `Ticket`: `row` and `seat_in_row` are
`PositiveIntegerField`s with `MinValueValidator(1)`. -/
def Ticket.clean_fields (t : Ticket) : FieldErrors :=
  (if t.row < 1 then [("row", minValueMsg)] else []) ++
    (if t.seat_in_row < 1 then [("seat_in_row", minValueMsg)] else [])

/-- `Ticket.clean` (src/airport/models.py lines 194-202): builds an error
mapping, adding a `row` entry when `row > flight.airplane.rows` and a
`seat_in_row` entry when `seat_in_row > flight.airplane.seats_in_row`;
raises the mapping when non-empty.  Neither check short-circuits the other. -/
def Ticket.clean (t : Ticket) : FieldErrors :=
  (if t.row > t.flight.airplane.rows then
    [("row", "Invalid row number for this airplane")]
  else []) ++
    (if t.seat_in_row > t.flight.airplane.seats_in_row then
      [("seat_in_row", "Invalid seat number for this airplane")]
    else [])

/-- `Model.full_clean` for `Ticket`: field-validator errors and `clean()`
errors are collected together and raised as one combined mapping. -/
def Ticket.full_clean (t : Ticket) : Except FieldErrors Unit :=
  match Ticket.clean_fields t ++ Ticket.clean t with
  | [] => Except.ok ()
  | errs => Except.error errs

/-- `Ticket.save` (src/airport/models.py lines 204-206): `self.full_clean()`
then `super().save()`. -/
def Ticket.save (t : Ticket) (db : List Ticket) :
    Except FieldErrors (List Ticket) :=
  match Ticket.full_clean t with
  | Except.error e => Except.error e
  | Except.ok _ => Except.ok (db ++ [t])

/-- Store-level insert for `Route`, enforcing the declared
`unique_together = ("source", "destination")` (src/airport/models.py,
`Route.Meta`): the insert fails with a uniqueness violation when a persisted
route already has the same (source, destination) pair of foreign keys. -/
def Route.insert (db : List Route) (r : Route) :
    Except String (List Route) :=
  if db.any (fun x => x.source == r.source && x.destination == r.destination)
  then Except.error "UniquenessViolation"
  else Except.ok (db ++ [r])

/-- Store-level deletion of an `AirplaneType`, applying the declared
`on_delete=models.SET_NULL` of `Airplane.airplane_type`
(src/airport/models.py lines 72-78): every airplane referencing the deleted
type keeps all its other fields and gets `airplane_type` cleared to null;
no airplane is deleted. -/
def AirplaneType.delete (tid : Nat) (airplanes : List Airplane) :
    List Airplane :=
  airplanes.map (fun a =>
    if a.airplane_type = some tid then { a with airplane_type := none } else a)

/-- A `Ticket.save` fails exactly when the combined field-validator and
`clean()` error mapping is non-empty, and then returns exactly that mapping. -/
lemma ticket_save_error_iff (t : Ticket) (db : List Ticket) (e : FieldErrors) :
    Ticket.save t db = Except.error e ↔
      (Ticket.clean_fields t ++ Ticket.clean t ≠ [] ∧
        e = Ticket.clean_fields t ++ Ticket.clean t) := by
  cases h : Ticket.clean_fields t ++ Ticket.clean t with
  | nil => simp [Ticket.save, Ticket.full_clean, h]
  | cons p rest =>
      simp [Ticket.save, Ticket.full_clean, h]
      exact eq_comm

/-- A `Ticket.full_clean` succeeds exactly when the combined error mapping is
empty. -/
lemma ticket_full_clean_ok_iff (t : Ticket) :
    Ticket.full_clean t = Except.ok () ↔
      Ticket.clean_fields t ++ Ticket.clean t = [] := by
  cases h : Ticket.clean_fields t ++ Ticket.clean t with
  | nil => simp [Ticket.full_clean, h]
  | cons p rest => simp [Ticket.full_clean, h]

/-- Claim C1: for every `Flight`, `save` fails with the `InvalidTimeRange`
error if and only if `arrival_time + 30 minutes ≤ departure_time`; when it
fails the result is the error itself (no persisted state is produced) and the
error is keyed to the `arrival_time` field. -/
theorem C1_flight_time_validation (f : Flight) (db : List Flight) :
    ((∃ e, Flight.save f db = Except.error e) ↔
      f.arrival_time + timedeltaMinutes 30 ≤ f.departure_time)
    ∧ (f.arrival_time + timedeltaMinutes 30 ≤ f.departure_time →
        Flight.save f db =
          Except.error [("arrival_time",
            "Arrival time must be at least 30 minutes from departure time.")]) := by
  constructor
  · constructor
    · rintro ⟨e, he⟩
      by_contra hc
      simp [Flight.save, Flight.full_clean, Flight.clean, Flight.clean_fields,
        hc] at he
    · intro h
      exact ⟨[("arrival_time",
        "Arrival time must be at least 30 minutes from departure time.")],
        by simp [Flight.save, Flight.full_clean, Flight.clean,
          Flight.clean_fields, h]⟩
  · intro h
    simp [Flight.save, Flight.full_clean, Flight.clean, Flight.clean_fields, h]

/-- Witness for C1 at a concrete flight whose arrival precedes departure by
an hour: save fails with the arrival_time-keyed error. -/
theorem C1_flight_time_validation_witness :
    Flight.save
        { departure_time := 0, arrival_time := -3600000000, route := 1,
          airplane := { name := "A", rows := 1, seats_in_row := 1,
                        airplane_type := none }, crew := [] } [] =
      Except.error [("arrival_time",
        "Arrival time must be at least 30 minutes from departure time.")] :=
  (C1_flight_time_validation _ []).2 (by decide)

/-- Claim C5: for every `Airplane` with positive rows and seats per row,
`capacity` equals `rows * seats_in_row`, and the minimal airplane with one
row of one seat has capacity one. -/
theorem C5_airplane_capacity (a : Airplane) (hr : 1 ≤ a.rows)
    (hs : 1 ≤ a.seats_in_row) :
    Airplane.capacity a = a.rows * a.seats_in_row
    ∧ (a.rows = 1 → a.seats_in_row = 1 → Airplane.capacity a = 1) := by
  refine ⟨rfl, fun h1 h2 => ?_⟩
  simp [Airplane.capacity, h1, h2]

/-- Witness for C5 at the minimal airplane (1 row, 1 seat per row). -/
theorem C5_airplane_capacity_witness :
    Airplane.capacity
        { name := "Mini", rows := 1, seats_in_row := 1,
          airplane_type := none } = 1 :=
  (C5_airplane_capacity
      { name := "Mini", rows := 1, seats_in_row := 1, airplane_type := none }
      (by decide) (by decide)).2 rfl rfl

/-- Claim C7: for every `Flight`, the derived `duration` equals
`arrival_time` minus `departure_time`. -/
theorem C7_flight_duration (f : Flight) :
    Flight.duration f = f.arrival_time - f.departure_time := rfl

/-- Claim C9: a concrete flight whose arrival is strictly before its
departure (by 10 minutes, less than the 30-minute threshold) passes
validation and is persisted by `save`, and its duration is negative: the
time rule does not require arrival after departure. -/
theorem C9_negative_duration_flight :
    ∃ f : Flight,
      f.arrival_time < f.departure_time
      ∧ f.departure_time - f.arrival_time < timedeltaMinutes 30
      ∧ Flight.save f [] = Except.ok [f]
      ∧ Flight.duration f < 0 := by
  refine ⟨{ departure_time := 0, arrival_time := -600000000, route := 1,
            airplane := { name := "A", rows := 1, seats_in_row := 1,
                          airplane_type := none }, crew := [] },
          by decide, by decide, ?_, by decide⟩
  rfl

/-- Claim C2: for every `Ticket`, `save` fails with a `SeatOutOfRange` error
(an entry produced by `Ticket.clean`) if and only if
`row > flight.airplane.rows` or `seat_in_row > flight.airplane.seats_in_row`;
and when both conditions hold the structured error contains both the `row`
entry and the `seat_in_row` entry, so neither check short-circuits the
other. -/
theorem C2_ticket_seat_validation (t : Ticket) (db : List Ticket) :
    ((∃ e, Ticket.save t db = Except.error e ∧
        (("row", "Invalid row number for this airplane") ∈ e ∨
          ("seat_in_row", "Invalid seat number for this airplane") ∈ e)) ↔
      (t.row > t.flight.airplane.rows ∨
        t.seat_in_row > t.flight.airplane.seats_in_row))
    ∧ (t.row > t.flight.airplane.rows →
        t.seat_in_row > t.flight.airplane.seats_in_row →
        ∃ e, Ticket.save t db = Except.error e ∧
          ("row", "Invalid row number for this airplane") ∈ e ∧
          ("seat_in_row", "Invalid seat number for this airplane") ∈ e) := by
  constructor
  · constructor
    · rintro ⟨e, he, hm⟩
      rw [ticket_save_error_iff] at he
      obtain ⟨-, rfl⟩ := he
      by_cases h1 : t.row > t.flight.airplane.rows
      · exact Or.inl h1
      by_cases h2 : t.seat_in_row > t.flight.airplane.seats_in_row
      · exact Or.inr h2
      exfalso
      by_cases hr : t.row < 1 <;> by_cases hs : t.seat_in_row < 1 <;>
        simp [Ticket.clean, Ticket.clean_fields, h1, h2, hr, hs,
          minValueMsg] at hm
    · intro h
      refine ⟨Ticket.clean_fields t ++ Ticket.clean t,
        (ticket_save_error_iff t db _).mpr ⟨?_, rfl⟩, ?_⟩
      · rcases h with h | h
        · have hm : ("row", "Invalid row number for this airplane") ∈
              Ticket.clean_fields t ++ Ticket.clean t := by
            simp [Ticket.clean, h]
          exact List.ne_nil_of_mem hm
        · have hm : ("seat_in_row", "Invalid seat number for this airplane") ∈
              Ticket.clean_fields t ++ Ticket.clean t := by
            simp [Ticket.clean, h]
          exact List.ne_nil_of_mem hm
      · rcases h with h | h
        · exact Or.inl (by simp [Ticket.clean, h])
        · exact Or.inr (by simp [Ticket.clean, h])
  · intro h1 h2
    refine ⟨Ticket.clean_fields t ++ Ticket.clean t,
      (ticket_save_error_iff t db _).mpr ⟨?_, rfl⟩,
      by simp [Ticket.clean, h1, h2],
      by simp [Ticket.clean, h1, h2]⟩
    have hm : ("row", "Invalid row number for this airplane") ∈
        Ticket.clean_fields t ++ Ticket.clean t := by
      simp [Ticket.clean, h1]
    exact List.ne_nil_of_mem hm

/-- Witness for C2 at a concrete ticket violating both bounds: both field
entries appear in the one structured error. -/
theorem C2_ticket_seat_validation_witness :
    ∃ e,
      Ticket.save
          { row := 11, seat_in_row := 7, order := 0,
            flight :=
              { departure_time := 0, arrival_time := 3600000000, route := 1,
                airplane := { name := "A", rows := 10, seats_in_row := 6,
                              airplane_type := none }, crew := [] } } [] =
        Except.error e ∧
      ("row", "Invalid row number for this airplane") ∈ e ∧
      ("seat_in_row", "Invalid seat number for this airplane") ∈ e :=
  (C2_ticket_seat_validation _ []).2 (by decide) (by decide)

/-- Claim C3: for `Flight` and `Ticket`, `save` runs `full_clean` before
persisting and appends the entity to the store only when validation passes;
on a validation failure the same structured error propagates to the caller
and no store state is produced. -/
theorem C3_save_contract (f : Flight) (fdb : List Flight) (t : Ticket)
    (tdb : List Ticket) :
    (Flight.full_clean f = Except.ok () →
      Flight.save f fdb = Except.ok (fdb ++ [f]))
    ∧ (∀ e, Flight.full_clean f = Except.error e →
        Flight.save f fdb = Except.error e)
    ∧ (Ticket.full_clean t = Except.ok () →
        Ticket.save t tdb = Except.ok (tdb ++ [t]))
    ∧ (∀ e, Ticket.full_clean t = Except.error e →
        Ticket.save t tdb = Except.error e) := by
  refine ⟨fun h => ?_, fun e h => ?_, fun h => ?_, fun e h => ?_⟩ <;>
    simp [Flight.save, Ticket.save, h]

/-- Witness for C3 at a concrete valid flight and a concrete invalid ticket:
the flight is persisted, the ticket's validation error propagates. -/
theorem C3_save_contract_witness :
    Flight.save
        { departure_time := 0, arrival_time := 3600000000, route := 1,
          airplane := { name := "A", rows := 10, seats_in_row := 6,
                        airplane_type := none }, crew := [] } [] =
      Except.ok
        [{ departure_time := 0, arrival_time := 3600000000, route := 1,
           airplane := { name := "A", rows := 10, seats_in_row := 6,
                         airplane_type := none }, crew := [] }]
    ∧ Ticket.save
          { row := 11, seat_in_row := 1, order := 0,
            flight :=
              { departure_time := 0, arrival_time := 3600000000, route := 1,
                airplane := { name := "A", rows := 10, seats_in_row := 6,
                              airplane_type := none }, crew := [] } } [] =
        Except.error [("row", "Invalid row number for this airplane")] :=
  ⟨(C3_save_contract _ []
      { row := 11, seat_in_row := 1, order := 0,
        flight :=
          { departure_time := 0, arrival_time := 3600000000, route := 1,
            airplane := { name := "A", rows := 10, seats_in_row := 6,
                          airplane_type := none }, crew := [] } } []).1 rfl,
    (C3_save_contract
      { departure_time := 0, arrival_time := 3600000000, route := 1,
        airplane := { name := "A", rows := 10, seats_in_row := 6,
                      airplane_type := none }, crew := [] } [] _ []).2.2.2
      [("row", "Invalid row number for this airplane")] rfl⟩

/-- Claim C10: for every airplane with `rows = r ≥ 1` and
`seats_in_row = s ≥ 1`, a positive (row, seat) pair passes `Ticket`
validation exactly when it lies in {1..r} × {1..s}, and the cardinality of
that grid equals the airplane's `capacity` `r * s`. -/
theorem C10_valid_seats_match_capacity (a : Airplane) (hr : 1 ≤ a.rows)
    (hs : 1 ≤ a.seats_in_row) (fl : Flight) (hfl : fl.airplane = a)
    (o : Nat) :
    (∀ row seat : Nat, 1 ≤ row → 1 ≤ seat →
      (Ticket.full_clean
          { row := row, seat_in_row := seat, order := o, flight := fl } =
        Except.ok () ↔
        (row ∈ Finset.Icc 1 a.rows ∧ seat ∈ Finset.Icc 1 a.seats_in_row)))
    ∧ (Finset.Icc 1 a.rows ×ˢ Finset.Icc 1 a.seats_in_row).card =
        Airplane.capacity a := by
  constructor
  · intro row seat h1 h2
    rw [ticket_full_clean_ok_iff]
    by_cases hR : row > a.rows <;> by_cases hS : seat > a.seats_in_row <;>
      simp [Ticket.clean_fields, Ticket.clean, hfl, Finset.mem_Icc,
        Nat.not_lt.mpr h1, Nat.not_lt.mpr h2, hR, hS] <;> omega
  · rw [Finset.card_product]
    simp [Nat.card_Icc, Airplane.capacity]

/-- Witness for C10 on a 2 × 3 airplane: the number of valid seats equals
the capacity 6. -/
theorem C10_valid_seats_match_capacity_witness :
    (Finset.Icc 1 2 ×ˢ Finset.Icc 1 3).card =
      Airplane.capacity
        { name := "Small", rows := 2, seats_in_row := 3,
          airplane_type := none } :=
  (C10_valid_seats_match_capacity
      { name := "Small", rows := 2, seats_in_row := 3, airplane_type := none }
      (by decide) (by decide)
      { departure_time := 0, arrival_time := 3600000000, route := 1,
        airplane := { name := "Small", rows := 2, seats_in_row := 3,
                      airplane_type := none }, crew := [] } rfl 0).2

/-- Counterexample to claim C4 as stated: a persisted route whose source and
destination coincide.  Inserting the route with the swapped
(destination, source) pair — here the same pair again — fails with a
uniqueness violation instead of succeeding. -/
theorem C4_route_uniqueness_counterexample :
    Route.insert [{ distance := 100, source := 7, destination := 7 }]
        { distance := 100,
          source :=
            Route.destination { distance := 100, source := 7, destination := 7 },
          destination :=
            Route.source { distance := 100, source := 7, destination := 7 } } =
      Except.error "UniquenessViolation" := rfl

/-- Claim C4 (amended): inserting a route whose (source, destination) pair
matches a persisted route fails with a uniqueness violation; inserting the
swapped (destination, source) pair succeeds provided no persisted route
already carries that pair (in particular this excludes routes with
source = destination), and a successful insert preserves pairwise
distinctness of (source, destination) pairs — uniqueness is directional. -/
theorem C4_route_directional_uniqueness (db : List Route) (r : Route)
    (hmem : r ∈ db) (rdup rswap : Route)
    (hd1 : rdup.source = r.source) (hd2 : rdup.destination = r.destination)
    (hs1 : rswap.source = r.destination) (hs2 : rswap.destination = r.source)
    (hfresh : ∀ x ∈ db,
      ¬(x.source = rswap.source ∧ x.destination = rswap.destination)) :
    Route.insert db rdup = Except.error "UniquenessViolation"
    ∧ Route.insert db rswap = Except.ok (db ++ [rswap])
    ∧ (db.Pairwise
        (fun u v => ¬(u.source = v.source ∧ u.destination = v.destination)) →
      (db ++ [rswap]).Pairwise
        (fun u v => ¬(u.source = v.source ∧ u.destination = v.destination))) := by
  refine ⟨?_, ?_, ?_⟩
  · have hany : db.any
        (fun x => x.source == rdup.source && x.destination == rdup.destination)
          = true := by
      rw [List.any_eq_true]
      exact ⟨r, hmem, by simp [hd1, hd2]⟩
    simp [Route.insert, hany]
  · cases hany : db.any
        (fun x =>
          x.source == rswap.source && x.destination == rswap.destination) with
    | false => simp [Route.insert, hany]
    | true =>
        exfalso
        obtain ⟨x, hx, hp⟩ := List.any_eq_true.mp hany
        simp only [Bool.and_eq_true, beq_iff_eq] at hp
        exact hfresh x hx hp
  · intro hpw
    rw [List.pairwise_append]
    refine ⟨hpw, List.pairwise_singleton _ _, ?_⟩
    intro u hu v hv
    rw [List.mem_singleton] at hv
    subst hv
    exact hfresh u hu

/-- Witness for C4 (amended) on a two-airport store: re-inserting (1, 2)
fails, inserting the reversed (2, 1) succeeds. -/
theorem C4_route_directional_uniqueness_witness :
    Route.insert [{ distance := 500, source := 1, destination := 2 }]
        { distance := 500, source := 1, destination := 2 } =
      Except.error "UniquenessViolation"
    ∧ Route.insert [{ distance := 500, source := 1, destination := 2 }]
          { distance := 500, source := 2, destination := 1 } =
        Except.ok [{ distance := 500, source := 1, destination := 2 },
          { distance := 500, source := 2, destination := 1 }] :=
  ⟨(C4_route_directional_uniqueness
      [{ distance := 500, source := 1, destination := 2 }]
      { distance := 500, source := 1, destination := 2 } (by simp)
      { distance := 500, source := 1, destination := 2 }
      { distance := 500, source := 2, destination := 1 }
      rfl rfl rfl rfl (by decide)).1,
    (C4_route_directional_uniqueness
      [{ distance := 500, source := 1, destination := 2 }]
      { distance := 500, source := 1, destination := 2 } (by simp)
      { distance := 500, source := 1, destination := 2 }
      { distance := 500, source := 2, destination := 1 }
      rfl rfl rfl rfl (by decide)).2.1⟩

/-- Claim C6: deleting an `AirplaneType` leaves the store of airplanes at
the same length (no airplane is deleted), and every airplane persists with
its name, rows and seats per row unchanged, its `airplane_type` cleared to
null when it referenced the deleted type and untouched otherwise. -/
theorem C6_airplane_type_delete_set_null (tid : Nat) (db : List Airplane)
    (a : Airplane) (ha : a ∈ db) :
    (AirplaneType.delete tid db).length = db.length
    ∧ ∃ b ∈ AirplaneType.delete tid db,
        b.name = a.name ∧ b.rows = a.rows ∧ b.seats_in_row = a.seats_in_row
        ∧ b.airplane_type =
            (if a.airplane_type = some tid then none else a.airplane_type) := by
  constructor
  · simp [AirplaneType.delete]
  · refine ⟨if a.airplane_type = some tid then
        { a with airplane_type := none } else a,
      List.mem_map_of_mem _ ha, ?_⟩
    by_cases h : a.airplane_type = some tid <;> simp [h]

/-- Witness for C6: deleting type 5 from a two-airplane store nulls the
reference of the airplane that pointed at type 5 and keeps its other
fields. -/
theorem C6_airplane_type_delete_set_null_witness :
    (AirplaneType.delete 5
        [{ name := "B737", rows := 10, seats_in_row := 6,
           airplane_type := some 5 },
         { name := "A320", rows := 8, seats_in_row := 4,
           airplane_type := some 9 }]).length = 2
    ∧ ∃ b ∈ AirplaneType.delete 5
          [{ name := "B737", rows := 10, seats_in_row := 6,
             airplane_type := some 5 },
           { name := "A320", rows := 8, seats_in_row := 4,
             airplane_type := some 9 }],
        b.name = "B737" ∧ b.rows = 10 ∧ b.seats_in_row = 6
        ∧ b.airplane_type = none := by
  have h := C6_airplane_type_delete_set_null 5
    [{ name := "B737", rows := 10, seats_in_row := 6,
       airplane_type := some 5 },
     { name := "A320", rows := 8, seats_in_row := 4,
       airplane_type := some 9 }]
    { name := "B737", rows := 10, seats_in_row := 6, airplane_type := some 5 }
    (by simp)
  simpa using h

/-- Whitespace class of the Python regex \s (space, tab, newline, carriage
return, vertical tab, form feed). -/
def pyIsSpace (c : Char) : Bool :=
  c == ' ' || c == '\t' || c == '\n' || c == '\r' || c == '\x0b' || c == '\x0c'

/-- Characters kept by the first substitution of Django `slugify`,
re.sub of the class complementary to word characters, \s and hyphen. -/
def slugKeep (c : Char) : Bool :=
  c.isAlphanum || c == '_' || pyIsSpace c || c == '-'

/-- The separator class of the second substitution of Django `slugify`:
hyphens and whitespace. -/
def slugSep (c : Char) : Bool := c == '-' || pyIsSpace c

/-- Second substitution of `slugify`: replace each maximal run of separator
characters with a single hyphen.  `prev` records whether the previous
character belonged to the run. -/
def collapseSeps : List Char → Bool → List Char
  | [], _ => []
  | c :: rest, prev =>
    if slugSep c then
      if prev then collapseSeps rest true else '-' :: collapseSeps rest true
    else c :: collapseSeps rest false

/-- Python `str.strip(chars)`: remove the given characters from both ends. -/
def pyStrip (cs : List Char) (l : List Char) : List Char :=
  ((l.dropWhile (fun c => cs.contains c)).reverse.dropWhile
    (fun c => cs.contains c)).reverse

/-- Django `django.utils.text.slugify` on the character list: drop non-ASCII
(the NFKD transliteration step is omitted, so this is exact on ASCII input),
lowercase, drop everything outside word characters, whitespace and hyphens,
collapse separator runs to single hyphens, and strip hyphens and underscores
from both ends. -/
def slugifyData (l : List Char) : List Char :=
  pyStrip ['-', '_']
    (collapseSeps
      (((l.filter (fun c => c.toNat < 128)).map Char.toLower).filter slugKeep)
      false)

/-- Django `slugify` at the string level. -/
def slugify (s : String) : String := String.mk (slugifyData s.data)

/-- Core of `os.path.splitext`: scan the reversed string for the last dot;
`rev` is the reversed unscanned prefix and `suf` the scanned suffix in
order.  A split happens at the last dot only if it lies inside the basename
(no '/' after it) and some character between the last '/' and that dot is
not itself a dot (leading dots of a basename never start an extension). -/
def splitextAux (l : List Char) : List Char → List Char → List Char × List Char
  | [], _ => (l, [])
  | c :: rest, suf =>
    if c = '/' then (l, [])
    else if c = '.' then
      if (rest.takeWhile (fun d => !(d == '/'))).any (fun d => !(d == '.'))
      then (rest.reverse, '.' :: suf)
      else (l, [])
    else splitextAux l rest (c :: suf)

/-- `os.path.splitext` on the character list: root and extension. -/
def splitextData (l : List Char) : List Char × List Char :=
  splitextAux l l.reverse []

/-- `os.path.splitext` at the string level. -/
def splitext (p : String) : String × String :=
  (String.mk (splitextData p.data).1, String.mk (splitextData p.data).2)

/-- `os.path.join` for two components (posix): an absolute second component
replaces the first, otherwise a '/' is inserted unless already present. -/
def os_path_join (a b : String) : String :=
  if b.data.head? = some '/' then b
  else if a = "" ∨ a.data.getLast? = some '/' then a ++ b
  else a ++ "/" ++ b

/-- `create_custom_path` (src/airport/utils.py): splits the extension off
the original filename and joins `uploads/images/` with
`{slugify(instance.name)}-{uuid.uuid4()}{extension}`.  The random
`uuid.uuid4()` draw is passed in as the string `uid`. -/
def create_custom_path (name filename uid : String) : String :=
  os_path_join "uploads/images/"
    (slugify name ++ "-" ++ uid ++ (splitext filename).2)

/-- The canonical textual form of `uuid.uuid4()`: 36 characters drawn from
lowercase hexadecimal digits and hyphens. -/
def uuidAlphabet : List Char := "0123456789abcdef-".data

/-- A string is in uuid4 textual format: length 36 over the uuid alphabet. -/
def IsUuidFormat (u : String) : Prop :=
  u.data.length = 36 ∧ ∀ c ∈ u.data, c ∈ uuidAlphabet

instance (u : String) : Decidable (IsUuidFormat u) := by
  unfold IsUuidFormat
  infer_instance

/-- Every character of a collapsed separator run output is a hyphen or comes
from the input. -/
lemma mem_collapseSeps (c : Char) :
    ∀ (l : List Char) (b : Bool), c ∈ collapseSeps l b → c = '-' ∨ c ∈ l := by
  intro l
  induction l with
  | nil => intro b h; simp [collapseSeps] at h
  | cons d rest ih =>
    intro b h
    by_cases hd : slugSep d = true
    · cases b with
      | true =>
          rw [show collapseSeps (d :: rest) true = collapseSeps rest true by
            simp [collapseSeps, hd]] at h
          rcases ih true h with h1 | h1
          · exact Or.inl h1
          · exact Or.inr (List.mem_cons_of_mem _ h1)
      | false =>
          rw [show collapseSeps (d :: rest) false =
              '-' :: collapseSeps rest true by simp [collapseSeps, hd]] at h
          rcases List.mem_cons.mp h with h1 | h1
          · exact Or.inl h1
          · rcases ih true h1 with h2 | h2
            · exact Or.inl h2
            · exact Or.inr (List.mem_cons_of_mem _ h2)
    · rw [show collapseSeps (d :: rest) b = d :: collapseSeps rest false by
        simp [collapseSeps, hd]] at h
      rcases List.mem_cons.mp h with h1 | h1
      · exact Or.inr (by simp [h1])
      · rcases ih false h1 with h2 | h2
        · exact Or.inl h2
        · exact Or.inr (List.mem_cons_of_mem _ h2)

/-- Stripping end characters only removes characters. -/
lemma mem_pyStrip (c : Char) (cs l : List Char) (h : c ∈ pyStrip cs l) :
    c ∈ l := by
  unfold pyStrip at h
  rw [List.mem_reverse] at h
  have h2 := (List.dropWhile_sublist _).subset h
  rw [List.mem_reverse] at h2
  exact (List.dropWhile_sublist _).subset h2

/-- Every character of a slug is a hyphen or a kept character. -/
lemma slugifyData_chars (c : Char) (l : List Char)
    (h : c ∈ slugifyData l) : c = '-' ∨ slugKeep c = true := by
  unfold slugifyData at h
  have h1 := mem_pyStrip _ _ _ h
  rcases mem_collapseSeps _ _ _ h1 with h2 | h2
  · exact Or.inl h2
  · exact Or.inr (List.of_mem_filter h2)

/-- Slugs contain no dot. -/
lemma slugifyData_no_dot (l : List Char) : ('.' : Char) ∉ slugifyData l := by
  intro h
  rcases slugifyData_chars _ _ h with h1 | h1
  · exact absurd h1 (by decide)
  · exact absurd h1 (by decide)

/-- Slugs contain no slash. -/
lemma slugifyData_no_slash (l : List Char) :
    ('/' : Char) ∉ slugifyData l := by
  intro h
  rcases slugifyData_chars _ _ h with h1 | h1
  · exact absurd h1 (by decide)
  · exact absurd h1 (by decide)

/-- Invariant of the `splitext` scan: root and extension recombine to the
input, and the extension is empty or a dot followed by dot-free text. -/
lemma splitextAux_spec (l : List Char) :
    ∀ (rev suf : List Char), rev.reverse ++ suf = l → ('.' : Char) ∉ suf →
      (splitextAux l rev suf).1 ++ (splitextAux l rev suf).2 = l
      ∧ ((splitextAux l rev suf).2 = []
          ∨ ∃ t, (splitextAux l rev suf).2 = '.' :: t ∧ ('.' : Char) ∉ t) := by
  intro rev
  induction rev with
  | nil => intro suf hinv hdot; simp [splitextAux]
  | cons c rest ih =>
    intro suf hinv hdot
    by_cases hc : c = '/'
    · rw [show splitextAux l (c :: rest) suf = (l, []) by
        simp [splitextAux, hc]]
      simp
    · by_cases hd : c = '.'
      · by_cases hany :
          ((rest.takeWhile (fun d => !(d == '/'))).any
            (fun d => !(d == '.'))) = true
        · rw [show splitextAux l (c :: rest) suf =
              (rest.reverse, '.' :: suf) by simp [splitextAux, hc, hd, hany]]
          constructor
          · rw [← hinv, hd]
            simp
          · exact Or.inr ⟨suf, rfl, hdot⟩
        · rw [show splitextAux l (c :: rest) suf = (l, []) by
            simp [splitextAux, hc, hd, hany]]
          simp
      · rw [show splitextAux l (c :: rest) suf =
            splitextAux l rest (c :: suf) by simp [splitextAux, hc, hd]]
        refine ih (c :: suf) ?_ ?_
        · rw [← hinv]
          simp
        · intro hmem
          rcases List.mem_cons.mp hmem with h1 | h1
          · exact hd h1.symm
          · exact hdot h1

/-- The root and extension of `splitext` recombine to the input, and the
extension is empty or a dot followed by dot-free text. -/
lemma splitextData_spec (l : List Char) :
    (splitextData l).1 ++ (splitextData l).2 = l
    ∧ ((splitextData l).2 = []
        ∨ ∃ t, (splitextData l).2 = '.' :: t ∧ ('.' : Char) ∉ t) :=
  splitextAux_spec l l.reverse [] (by simp) (by simp)

/-- uuid4 strings contain no dot: their alphabet is hex digits and hyphen. -/
lemma uuid_no_dot (u : String) (h : IsUuidFormat u) :
    ∀ c ∈ u.data, ¬ c = '.' := by
  intro c hc hdot
  have hmem := h.2 c hc
  rw [hdot] at hmem
  exact absurd hmem (by decide)

/-- Taking up to the first dot of `a ++ '.' :: t` yields `a` when `a` is
dot-free. -/
lemma takeWhile_no_dot_append (a t : List Char) (ha : ∀ c ∈ a, ¬ c = '.') :
    (a ++ '.' :: t).takeWhile (fun c => !(c == '.')) = a := by
  induction a with
  | nil => simp [List.takeWhile_cons]
  | cons c rest ih =>
    have hc : ¬ c = '.' := ha c (List.mem_cons_self _ _)
    rw [List.cons_append, List.takeWhile_cons, if_pos (by simp [hc]),
      ih (fun d hd => ha d (List.mem_cons_of_mem _ hd))]

/-- A dot-free slug, the hyphen and a dot-free id make a dot-free prefix. -/
lemma no_dot_middle (s u : List Char) (hs : ∀ c ∈ s, ¬ c = '.')
    (hu : ∀ c ∈ u, ¬ c = '.') : ∀ c ∈ s ++ '-' :: u, ¬ c = '.' := by
  intro c hc
  rcases List.mem_append.mp hc with h | h
  · exact hs c h
  · rcases List.mem_cons.mp h with h | h
    · intro hd
      rw [h] at hd
      exact absurd hd (by decide)
    · exact hu c h

/-- Two `<slug>-<id><ext>` strings with dot-free slugs, dot-free ids of
equal length, and extensions that are empty or dot-led, can only be equal
when the ids are equal: the first dot (or the absence of any) pins down
where the extension starts, and the fixed id length pins down the id. -/
lemma path_tail_inj (s1 u1 e1 s2 u2 e2 : List Char)
    (hs1 : ∀ c ∈ s1, ¬ c = '.') (hs2 : ∀ c ∈ s2, ¬ c = '.')
    (hu1 : ∀ c ∈ u1, ¬ c = '.') (hu2 : ∀ c ∈ u2, ¬ c = '.')
    (hlen : u1.length = u2.length)
    (he1 : e1 = [] ∨ ∃ t, e1 = '.' :: t)
    (he2 : e2 = [] ∨ ∃ t, e2 = '.' :: t)
    (heq : (s1 ++ '-' :: u1) ++ e1 = (s2 ++ '-' :: u2) ++ e2) :
    u1 = u2 := by
  have key : s1 ++ '-' :: u1 = s2 ++ '-' :: u2 := by
    rcases he1 with rfl | ⟨t1, rfl⟩ <;> rcases he2 with rfl | ⟨t2, rfl⟩
    · simpa using heq
    · exfalso
      rw [List.append_nil] at heq
      have hdot : ('.' : Char) ∈ s1 ++ '-' :: u1 := by rw [heq]; simp
      exact no_dot_middle s1 u1 hs1 hu1 '.' hdot rfl
    · exfalso
      rw [List.append_nil] at heq
      have hdot : ('.' : Char) ∈ s2 ++ '-' :: u2 := by rw [← heq]; simp
      exact no_dot_middle s2 u2 hs2 hu2 '.' hdot rfl
    · have h1 := takeWhile_no_dot_append (s1 ++ '-' :: u1) t1
        (no_dot_middle s1 u1 hs1 hu1)
      have h2 := takeWhile_no_dot_append (s2 ++ '-' :: u2) t2
        (no_dot_middle s2 u2 hs2 hu2)
      rw [← h1, ← h2, heq]
  obtain ⟨-, hcons⟩ := List.append_inj' key (by simp [hlen])
  simpa using hcons

/-- The second component handed to `os.path.join` never starts with a
slash: it opens with either a slug character or the hyphen. -/
lemma slug_dash_head (n : String) (r : List Char) :
    (slugifyData n.data ++ '-' :: r).head? ≠ some '/' := by
  cases h : slugifyData n.data with
  | nil => simp
  | cons c cs =>
      intro hsome
      rw [List.cons_append, List.head?_cons] at hsome
      have hc : c = '/' := Option.some.inj hsome
      apply slugifyData_no_slash n.data
      rw [h, hc]
      exact List.mem_cons_self _ _

/-- The character data of the argument `create_custom_path` joins onto the
upload prefix. -/
lemma create_custom_path_arg_data (n f u : String) :
    (slugify n ++ "-" ++ u ++ (splitext f).2).data
      = slugifyData n.data
          ++ '-' :: (u.data ++ (splitextData f.data).2) := by
  simp [String.data_append, slugify, splitext]

/-- `create_custom_path` produces exactly the upload prefix followed by
slug, hyphen, id and extension. -/
lemma create_custom_path_eq (n f u : String) :
    create_custom_path n f u =
      "uploads/images/" ++ (slugify n ++ "-" ++ u ++ (splitext f).2) := by
  have hb : (slugify n ++ "-" ++ u ++ (splitext f).2).data.head?
      ≠ some '/' := by
    rw [create_custom_path_arg_data]
    exact slug_dash_head n _
  unfold create_custom_path os_path_join
  rw [if_neg hb, if_pos (Or.inr (by decide))]

/-- Character data of a full produced path: upload prefix, slug, hyphen,
id, extension. -/
lemma create_custom_path_data (n f u : String) :
    (create_custom_path n f u).data
      = "uploads/images/".data
          ++ (slugifyData n.data
              ++ '-' :: (u.data ++ (splitextData f.data).2)) := by
  rw [create_custom_path_eq, String.data_append, create_custom_path_arg_data]

/-- Claim C8: for every entity name and original filename,
`create_custom_path` produces `uploads/images/<slugified-name>-<id><ext>`
where `<ext>` is the original filename's extension as split off by
`os.path.splitext` (root and extension recombine to the filename, and the
extension is empty or dot-led); and two invocations that draw distinct
uuid4 ids produce distinct paths, whatever their names and filenames. -/
theorem C8_create_custom_path (n1 f1 u1 n2 f2 u2 : String)
    (h1 : IsUuidFormat u1) (h2 : IsUuidFormat u2) (hne : u1 ≠ u2) :
    create_custom_path n1 f1 u1
        = "uploads/images/" ++ slugify n1 ++ "-" ++ u1 ++ (splitext f1).2
    ∧ (splitext f1).1 ++ (splitext f1).2 = f1
    ∧ ((splitext f1).2 = "" ∨ ∃ t : String, (splitext f1).2 = "." ++ t)
    ∧ create_custom_path n1 f1 u1 ≠ create_custom_path n2 f2 u2 := by
  refine ⟨?_, ?_, ?_, ?_⟩
  · rw [create_custom_path_eq]
    simp [String.append_assoc]
  · apply String.ext
    rw [String.data_append]
    exact (splitextData_spec f1.data).1
  · rcases (splitextData_spec f1.data).2 with h | ⟨t, ht, -⟩
    · exact Or.inl (String.ext h)
    · exact Or.inr ⟨String.mk t, String.ext ht⟩
  · intro heq
    apply hne
    have hdata := congrArg String.data heq
    rw [create_custom_path_data, create_custom_path_data] at hdata
    have htail := List.append_cancel_left hdata
    apply String.ext
    refine path_tail_inj (slugifyData n1.data) u1.data
      (splitextData f1.data).2 (slugifyData n2.data) u2.data
      (splitextData f2.data).2 ?_ ?_ ?_ ?_ ?_ ?_ ?_ ?_
    · exact fun c hc hd => slugifyData_no_dot n1.data (hd ▸ hc)
    · exact fun c hc hd => slugifyData_no_dot n2.data (hd ▸ hc)
    · exact uuid_no_dot u1 h1
    · exact uuid_no_dot u2 h2
    · rw [h1.1, h2.1]
    · rcases (splitextData_spec f1.data).2 with h | ⟨t, ht, -⟩
      · exact Or.inl h
      · exact Or.inr ⟨t, ht⟩
    · rcases (splitextData_spec f2.data).2 with h | ⟨t, ht, -⟩
      · exact Or.inl h
      · exact Or.inr ⟨t, ht⟩
    · simpa [List.append_assoc] using htail

/-- Witness for C8: two concrete invocations for the same airplane name and
image filename but distinct uuid4 draws yield distinct storage paths. -/
theorem C8_create_custom_path_witness :
    create_custom_path "My Plane" "photo.png"
        "123e4567-e89b-42d3-a456-426614174000"
      ≠ create_custom_path "My Plane" "photo.png"
          "123e4567-e89b-42d3-a456-426614174001" :=
  (C8_create_custom_path "My Plane" "photo.png"
      "123e4567-e89b-42d3-a456-426614174000" "My Plane" "photo.png"
      "123e4567-e89b-42d3-a456-426614174001"
      (by decide) (by decide) (by decide)).2.2.2
